import Mathlib

/-!
Verification of the arduino/serial-monitor pluggable-monitor implementation.

The repository contains three variants of the monitor:
* main.go           — struct-based monitor, descriptor with N/E/O/M/S parity labels;
* unnamed/part_000  — package-global variant (global serialSettings / openedPort vars);
* unnamed/part_001  — struct-based variant with rts/dtr parameters and rollback on
                      a failed live apply.
We embed each variant shallowly: Go maps of configuration parameters become
association lists (Go map keys are unique), in-place pointer mutation of a
parameter becomes functional update of the list entry, and the external
go.bug.st/serial driver becomes an explicit environment of result oracles
(SetMode / SetDTR / SetRTS / serial.Open / Close outcomes).
-/

namespace SerialMonitorProof

/-- monitor.PortParameterDescriptor from the pluggable-monitor protocol handler:
a label, a type tag, the list of allowed values and the currently selected value. -/
structure PortParameterDescriptor where
  label : String
  type : String
  values : List String
  selected : String
deriving DecidableEq

/-- The ConfigurationParameter map of a monitor.PortDescriptor, embedded as an
association list from parameter name to descriptor (Go map keys are unique). -/
abbrev Params := List (String × PortParameterDescriptor)

/-- Go map indexing serialSettings.ConfigurationParameter[name]. -/
def lookupParam : Params → String → Option PortParameterDescriptor
  | [], _ => none
  | (k, p) :: rest, name => if k = name then some p else lookupParam rest name

/-- The in-place assignment parameter.Selected = value, seen through the map:
the entry (or entries) keyed by name get their selected field replaced. -/
def setSelected : Params → String → String → Params
  | [], _, _ => []
  | (k, p) :: rest, name, v =>
    (k, if k = name then { p with selected := v } else p) :: setSelected rest name v

/-- strconv.Atoi with the error ignored, as all three getMode variants do:
a string that does not parse as an integer contributes the zero value 0. -/
def atoi (s : String) : Int := (s.toInt?).getD 0

/-- serial.Parity of go.bug.st/serial (an integer enum, zero value NoParity). -/
inductive Parity where
  | noParity
  | oddParity
  | evenParity
  | markParity
  | spaceParity
deriving DecidableEq

/-- serial.StopBits of go.bug.st/serial (an integer enum, zero value OneStopBit). -/
inductive StopBits where
  | oneStopBit
  | onePointFiveStopBits
  | twoStopBits
deriving DecidableEq

/-- serial.ModemOutputBits: the initial DTR/RTS line state of a mode. -/
structure ModemOutputBits where
  rts : Bool
  dtr : Bool
deriving DecidableEq

/-- serial.Mode as used by main.go and part_001. A nil InitialStatusBits
pointer is none. -/
structure Mode where
  baudRate : Int
  dataBits : Int
  parity : Parity
  stopBits : StopBits
  initialStatusBits : Option ModemOutputBits
deriving DecidableEq

/-- The external go.bug.st/serial driver, as a result oracle: each field gives
the outcome the driver would return for the corresponding call.  none / .ok
means success, some msg / .error msg the error message the call fails with. -/
structure PortEnv where
  setMode : Mode → Option String
  setDTR : Bool → Option String
  setRTS : Bool → Option String
  openPort : String → Mode → Except String Nat
  resetInputBufferErr : Option String
  resetOutputBufferErr : Option String
  closeErr : Option String

/-- An environment in which every driver call succeeds. -/
def okEnv : PortEnv where
  setMode := fun _ => none
  setDTR := fun _ => none
  setRTS := fun _ => none
  openPort := fun _ _ => .ok 0
  resetInputBufferErr := none
  resetOutputBufferErr := none
  closeErr := none

/-- An environment in which every live SetMode apply fails. -/
def failApplyEnv : PortEnv :=
  { okEnv with setMode := fun _ => some "inappropriate ioctl for device" }

/-- An environment in which opening the port fails. -/
def failOpenEnv : PortEnv :=
  { okEnv with openPort := fun _ _ => .error "no such file or directory" }

namespace Part001

/-- SerialMonitor of unnamed/part_001: the open serial.Port handle (nil when
none has been stored), the settings descriptor and the openedPort flag. -/
structure SerialMonitor where
  serialPort : Option Nat
  serialSettings : Params
  openedPort : Bool
deriving DecidableEq

/-- NewSerialMonitor of part_001: the initial descriptor (six parameters)
with the default selections; zero values for serialPort and openedPort. -/
def NewSerialMonitor : SerialMonitor where
  serialPort := none
  serialSettings :=
    [ ("baudrate",
        { label := "Baudrate", type := "enum"
          values := ["300", "600", "750",
                     "1200", "2400", "4800", "9600",
                     "19200", "31250", "38400", "57600", "74880",
                     "115200", "230400", "250000", "460800", "500000", "921600",
                     "1000000", "2000000"]
          selected := "9600" })
    , ("parity",
        { label := "Parity", type := "enum"
          values := ["none", "even", "odd", "mark", "space"]
          selected := "none" })
    , ("bits",
        { label := "Data bits", type := "enum"
          values := ["5", "6", "7", "8", "9"]
          selected := "8" })
    , ("stop_bits",
        { label := "Stop bits", type := "enum"
          values := ["1", "1.5", "2"]
          selected := "1" })
    , ("rts",
        { label := "RTS", type := "enum"
          values := ["on", "off"]
          selected := "on" })
    , ("dtr",
        { label := "DTR", type := "enum"
          values := ["on", "off"]
          selected := "on" }) ]
  openedPort := false

/-- Selected value of a parameter, as the Go code reads it through the map
(on the fixed descriptor the key always exists, so the default is never hit). -/
def selectedOf (ps : Params) (name : String) : String :=
  match lookupParam ps name with
  | some p => p.selected
  | none => ""

/-- getDTR of part_001. -/
def getDTR (d : SerialMonitor) : Bool :=
  selectedOf d.serialSettings "dtr" = "on"

/-- getRTS of part_001. -/
def getRTS (d : SerialMonitor) : Bool :=
  selectedOf d.serialSettings "rts" = "on"

/-- The parity switch of part_001's getMode: it matches the capitalized labels
None/Even/Odd/Mark/Space; any other string leaves the zero value NoParity. -/
def parityOfSelected (s : String) : Parity :=
  if s = "None" then .noParity
  else if s = "Even" then .evenParity
  else if s = "Odd" then .oddParity
  else if s = "Mark" then .markParity
  else if s = "Space" then .spaceParity
  else .noParity

/-- The stop_bits switch of part_001's getMode (zero value OneStopBit on no match). -/
def stopBitsOfSelected (s : String) : StopBits :=
  if s = "1" then .oneStopBit
  else if s = "1.5" then .onePointFiveStopBits
  else if s = "2" then .twoStopBits
  else .oneStopBit

/-- getMode of part_001. -/
def getMode (d : SerialMonitor) : Mode where
  baudRate := atoi (selectedOf d.serialSettings "baudrate")
  dataBits := atoi (selectedOf d.serialSettings "bits")
  parity := parityOfSelected (selectedOf d.serialSettings "parity")
  stopBits := stopBitsOfSelected (selectedOf d.serialSettings "stop_bits")
  initialStatusBits := some { dtr := getDTR d, rts := getRTS d }

/-- The state after the staging assignment parameter.Selected = value. -/
def setParam (d : SerialMonitor) (name value : String) : SerialMonitor :=
  { d with serialSettings := setSelected d.serialSettings name value }

/-- The switch of part_001's Configure that applies a staged parameter to the
open port: some r is the driver result of the matching case, none is the
default case (which panics in the Go code — unreachable on the fixed
descriptor). d1 is the monitor with the staged value already set. -/
def applyParameter (env : PortEnv) (d1 : SerialMonitor) (parameterName : String) :
    Option (Option String) :=
  if parameterName = "baudrate" ∨ parameterName = "parity" ∨
     parameterName = "bits" ∨ parameterName = "stop_bits" then
    some (env.setMode (getMode d1))
  else if parameterName = "dtr" then
    some (env.setDTR (getDTR d1))
  else if parameterName = "rts" then
    some (env.setRTS (getRTS d1))
  else
    none

/-- Outcome of part_001's Configure: success or error, each carrying the
monitor state left behind by the in-place mutations, or the panic of the
impossible default switch branch. -/
inductive ConfigureResult where
  | ok (d : SerialMonitor)
  | err (d : SerialMonitor) (msg : String)
  | panicked (msg : String)
deriving DecidableEq

/-- Configure of part_001: validate the name and value, stage the new value,
apply it live when the port is open, and roll the staged value back if the
live apply fails. -/
def Configure (env : PortEnv) (d : SerialMonitor) (parameterName value : String) :
    ConfigureResult :=
  match lookupParam d.serialSettings parameterName with
  | none => .err d ("could not find parameter named " ++ parameterName)
  | some parameter =>
    if value ∈ parameter.values then
      let oldValue := parameter.selected
      let d1 := setParam d parameterName value
      if d.openedPort then
        match applyParameter env d1 parameterName with
        | none => .panicked ("Invalid parameter: " ++ parameterName)
        | some none => .ok d1
        | some (some e) => .err (setParam d1 parameterName oldValue) e
      else
        .ok d1
    else
      .err d ("invalid value for parameter " ++ parameterName ++ ": " ++ value)

/-- Open of part_001: reject when already open, otherwise open through the
driver; on success the input/output buffer resets are best-effort (results
discarded) and the handle and flag are stored. -/
def Open (env : PortEnv) (d : SerialMonitor) (boardPort : String) :
    SerialMonitor × Except String Nat :=
  if d.openedPort then
    (d, .error ("port already opened: " ++ boardPort))
  else
    match env.openPort boardPort (getMode d) with
    | .error e => (d, .error e)
    | .ok serialPort =>
      let _ := env.resetInputBufferErr
      let _ := env.resetOutputBufferErr
      ({ d with openedPort := true, serialPort := some serialPort }, .ok serialPort)

/-- Close of part_001: reject when already closed; otherwise the driver Close
result is discarded and the flag cleared (the stale handle stays stored). -/
def Close (env : PortEnv) (d : SerialMonitor) : SerialMonitor × Option String :=
  if !d.openedPort then
    (d, some "port already closed")
  else
    let _ := env.closeErr
    ({ d with openedPort := false }, none)

/-- Quit of part_001: the body is empty. -/
def Quit (d : SerialMonitor) : SerialMonitor := d

/-- One protocol operation against the part_001 monitor, with the driver
environment the operation runs in. -/
inductive Op where
  | doConfigure (env : PortEnv) (name value : String)
  | doOpen (env : PortEnv) (boardPort : String)
  | doClose (env : PortEnv)

/-- The monitor state after one operation (a Configure panic aborts the
process, so it contributes no successor state; it is unreachable from the
fixed descriptor anyway). -/
def step (d : SerialMonitor) : Op → SerialMonitor
  | .doConfigure env n v =>
    match Configure env d n v with
    | .ok d1 => d1
    | .err d1 _ => d1
    | .panicked _ => d
  | .doOpen env bp => (Open env d bp).1
  | .doClose env => (Close env d).1

/-- The monitor state after a sequence of operations. -/
def run (d : SerialMonitor) (ops : List Op) : SerialMonitor := ops.foldl step d

end Part001

namespace Part000

/-- serial.Mode as built by part_000's getMode: parity and stop bits are
integer casts serial.Parity(Atoi(..)) / serial.StopBits(Atoi(..)), so we keep
them as integers. -/
structure Mode where
  baudRate : Int
  dataBits : Int
  parity : Int
  stopBits : Int
deriving DecidableEq

/-- The driver oracle for the part_000 variant. -/
structure PortEnv where
  setMode : Mode → Option String
  openPort : String → Mode → Except String Nat
  closeErr : Option String

/-- The package-level mutable state of part_000: the global serialSettings
descriptor and the global openedPort serial.Port variable (nil = none). -/
structure State where
  serialSettings : Params
  openedPort : Option Nat
deriving DecidableEq

/-- The initial values of the package-level vars of part_000. -/
def initialState : State where
  serialSettings :=
    [ ("baudrate",
        { label := "Baudrate", type := "enum"
          values := ["300", "600", "750", "1200", "2400", "4800", "9600", "19200",
                     "38400", "57600", "115200", "230400", "460800", "500000",
                     "921600", "1000000", "2000000"]
          selected := "9600" })
    , ("parity",
        { label := "Parity", type := "enum"
          values := ["N", "E", "O", "M", "S"]
          selected := "N" })
    , ("bits",
        { label := "Data bits", type := "enum"
          values := ["5", "6", "7", "8", "9"]
          selected := "8" })
    , ("stop_bits",
        { label := "Stop bits", type := "enum"
          values := ["1", "1.5", "2"]
          selected := "1" }) ]
  openedPort := none

/-- getMode of part_000: every field, parity and stop bits included, is read
through strconv.Atoi with the error discarded. -/
def getMode (st : State) : Mode where
  baudRate := atoi (Part001.selectedOf st.serialSettings "baudrate")
  dataBits := atoi (Part001.selectedOf st.serialSettings "bits")
  parity := atoi (Part001.selectedOf st.serialSettings "parity")
  stopBits := atoi (Part001.selectedOf st.serialSettings "stop_bits")

/-- Configure of part_000: validate, assign Selected, and when the global
port is open apply the new mode.  There is no rollback: on a failed SetMode
the freshly assigned value stays selected and the error is returned. -/
def Configure (env : PortEnv) (st : State) (parameterName value : String) :
    State × Option String :=
  match lookupParam st.serialSettings parameterName with
  | none => (st, some ("could not find parameter named " ++ parameterName))
  | some p =>
    if value ∈ p.values then
      let st1 : State := { st with serialSettings := setSelected st.serialSettings parameterName value }
      match st.openedPort with
      | some _ =>
        match env.setMode (getMode st1) with
        | some e => (st1, some e)
        | none => (st1, none)
      | none => (st1, none)
    else
      (st, some ("invalid value for parameter " ++ parameterName ++ ": " ++ value))

/-- Open of part_000.  The short variable declaration
openedPort, err := serial.Open(...) binds a new local openedPort that shadows
the package-level variable, so on both the success and the failure path the
global state is left untouched; the freshly opened handle is only returned. -/
def Open (env : PortEnv) (st : State) (boardPort : String) :
    State × Except String Nat :=
  if st.openedPort.isSome then
    (st, .error ("port already opened: " ++ boardPort))
  else
    match env.openPort boardPort (getMode st) with
    | .error e => (st, .error e)
    | .ok localOpenedPort => (st, .ok localOpenedPort)

/-- Close of part_000: reject when the global openedPort is nil, else close
(result discarded) and reset the global to nil. -/
def Close (env : PortEnv) (st : State) : State × Option String :=
  match st.openedPort with
  | none => (st, some "port already closed")
  | some _ =>
    let _ := env.closeErr
    ({ st with openedPort := none }, none)

/-- Quit of part_000: the body is empty. -/
def Quit (st : State) : State := st

/-- A part_000 environment whose live SetMode apply always fails. -/
def failApplyEnv : PortEnv where
  setMode := fun _ => some "input/output error"
  openPort := fun _ _ => .ok 0
  closeErr := none

/-- A part_000 environment in which every driver call succeeds. -/
def okEnv : PortEnv where
  setMode := fun _ => none
  openPort := fun _ _ => .ok 0
  closeErr := none

/-- The part_000 global state with a port stored in the global openedPort
variable (the situation the Configure live-apply path requires). -/
def openedState : State := { initialState with openedPort := some 0 }

end Part000

namespace MainGo

/-- SerialMonitor of main.go (same shape as part_001's). -/
structure SerialMonitor where
  serialPort : Option Nat
  serialSettings : Params
  openedPort : Bool
deriving DecidableEq

/-- NewSerialMonitor of main.go: four parameters, single-letter parity labels. -/
def NewSerialMonitor : SerialMonitor where
  serialPort := none
  serialSettings :=
    [ ("baudrate",
        { label := "Baudrate", type := "enum"
          values := ["300", "600", "750", "1200", "2400", "4800", "9600", "19200",
                     "38400", "57600", "115200", "230400", "460800", "500000",
                     "921600", "1000000", "2000000"]
          selected := "9600" })
    , ("parity",
        { label := "Parity", type := "enum"
          values := ["N", "E", "O", "M", "S"]
          selected := "N" })
    , ("bits",
        { label := "Data bits", type := "enum"
          values := ["5", "6", "7", "8", "9"]
          selected := "8" })
    , ("stop_bits",
        { label := "Stop bits", type := "enum"
          values := ["1", "1.5", "2"]
          selected := "1" }) ]
  openedPort := false

/-- The parity switch of main.go's getMode (labels N/E/O/M/S, zero value on
no match). -/
def parityOfSelected (s : String) : Parity :=
  if s = "N" then .noParity
  else if s = "E" then .evenParity
  else if s = "O" then .oddParity
  else if s = "M" then .markParity
  else if s = "S" then .spaceParity
  else .noParity

/-- getMode of main.go (no InitialStatusBits — the pointer field stays nil). -/
def getMode (d : SerialMonitor) : Mode where
  baudRate := atoi (Part001.selectedOf d.serialSettings "baudrate")
  dataBits := atoi (Part001.selectedOf d.serialSettings "bits")
  parity := parityOfSelected (Part001.selectedOf d.serialSettings "parity")
  stopBits := Part001.stopBitsOfSelected (Part001.selectedOf d.serialSettings "stop_bits")
  initialStatusBits := none

/-- The state after the assignment parameter.Selected = value in main.go. -/
def setParam (d : SerialMonitor) (name value : String) : SerialMonitor :=
  { d with serialSettings := setSelected d.serialSettings name value }

/-- Configure of main.go: validate, stage, apply the full mode when open, and
roll the staged value back when the apply fails. -/
def Configure (env : PortEnv) (d : SerialMonitor) (parameterName value : String) :
    SerialMonitor × Option String :=
  match lookupParam d.serialSettings parameterName with
  | none => (d, some ("could not find parameter named " ++ parameterName))
  | some p =>
    if value ∈ p.values then
      let oldValue := p.selected
      let d1 := setParam d parameterName value
      if d.openedPort then
        match env.setMode (getMode d1) with
        | some e => (setParam d1 parameterName oldValue, some e)
        | none => (d1, none)
      else
        (d1, none)
    else
      (d, some ("invalid value for parameter " ++ parameterName ++ ": " ++ value))

/-- Open of main.go. -/
def Open (env : PortEnv) (d : SerialMonitor) (boardPort : String) :
    SerialMonitor × Except String Nat :=
  if d.openedPort then
    (d, .error ("port already opened: " ++ boardPort))
  else
    match env.openPort boardPort (getMode d) with
    | .error e => (d, .error e)
    | .ok serialPort =>
      ({ d with openedPort := true, serialPort := some serialPort }, .ok serialPort)

/-- Close of main.go: the driver Close result is discarded. -/
def Close (env : PortEnv) (d : SerialMonitor) : SerialMonitor × Option String :=
  if !d.openedPort then
    (d, some "port already closed")
  else
    let _ := env.closeErr
    ({ d with openedPort := false }, none)

/-- Quit of main.go: the body is empty. -/
def Quit (d : SerialMonitor) : SerialMonitor := d

/-- A main.go monitor in the Open state. -/
def openedMonitor : SerialMonitor :=
  { NewSerialMonitor with openedPort := true, serialPort := some 3 }

end MainGo

/-- The immutable part of a parameter list: per entry the key, label, type tag
and allowed values (everything except the selected value). -/
def skeletonOf (ps : Params) : List (String × String × String × List String) :=
  ps.map fun kp => (kp.1, kp.2.label, kp.2.type, kp.2.values)

/-- Every parameter of the list has a selected value that is a non-empty
member of its allowed values. -/
def selectionsOk (ps : Params) : Bool :=
  ps.all fun kp => decide (kp.2.selected ∈ kp.2.values) && !(kp.2.selected == "")

namespace Part001

/-- The skeleton of part_001's initial descriptor. -/
def stdSkeleton : List (String × String × String × List String) :=
  skeletonOf NewSerialMonitor.serialSettings

/-- State invariant on the settings of the part_001 monitor: the skeleton is
the one built by NewSerialMonitor and every selected value is a non-empty
member of its allowed values. -/
def InvSettings (ps : Params) : Bool :=
  decide (skeletonOf ps = stdSkeleton) && selectionsOk ps

/-- State invariant of the part_001 monitor. -/
def Inv (d : SerialMonitor) : Bool := InvSettings d.serialSettings

/-- A part_001 monitor in the Open state. -/
def openedMonitor : SerialMonitor :=
  { NewSerialMonitor with openedPort := true, serialPort := some 7 }

end Part001

/-! ### Association-list lemmas for the configuration store -/

theorem data_append (s t : String) : (s ++ t).data = s.data ++ t.data := by
  cases s; cases t; rfl

theorem notFound_ne_invalid (name value : String) :
    "could not find parameter named " ++ name ≠
      "invalid value for parameter " ++ name ++ ": " ++ value := by
  intro h
  have h2 := congrArg String.data h
  rw [data_append, data_append, data_append, data_append] at h2
  have hc : ("could not find parameter named ").data =
      'c' :: ("ould not find parameter named ").data := rfl
  have hi : ("invalid value for parameter ").data =
      'i' :: ("nvalid value for parameter ").data := rfl
  rw [hc, hi] at h2
  simp at h2

theorem keys_setSelected (ps : Params) (name v : String) :
    (setSelected ps name v).map Prod.fst = ps.map Prod.fst := by
  induction ps with
  | nil => rfl
  | cons kp rest ih =>
    obtain ⟨k, p⟩ := kp
    simp [setSelected, ih]

theorem setSelected_not_mem (ps : Params) (name v : String)
    (h : name ∉ ps.map Prod.fst) : setSelected ps name v = ps := by
  induction ps with
  | nil => rfl
  | cons kp rest ih =>
    obtain ⟨k, p⟩ := kp
    simp only [List.map_cons, List.mem_cons] at h
    push_neg at h
    simp only [setSelected]
    rw [if_neg (fun hk => h.1 hk.symm), ih h.2]

theorem lookupParam_none_iff (ps : Params) (name : String) :
    lookupParam ps name = none ↔ name ∉ ps.map Prod.fst := by
  induction ps with
  | nil => simp [lookupParam]
  | cons kp rest ih =>
    obtain ⟨k, p⟩ := kp
    simp only [lookupParam, List.map_cons, List.mem_cons]
    by_cases h : k = name
    · subst h; simp
    · rw [if_neg h, ih]
      simp [(Ne.symm h : name ≠ k)]

theorem lookupParam_mem_skeleton (ps : Params) (name : String)
    (p : PortParameterDescriptor) (h : lookupParam ps name = some p) :
    (name, p.label, p.type, p.values) ∈ skeletonOf ps := by
  induction ps with
  | nil => simp [lookupParam] at h
  | cons kp rest ih =>
    obtain ⟨k, q⟩ := kp
    by_cases hk : k = name
    · simp only [lookupParam, if_pos hk] at h
      have hq : q = p := Option.some.inj h
      subst hq; subst hk
      simp [skeletonOf]
    · simp only [lookupParam, if_neg hk] at h
      simp only [skeletonOf, List.map_cons, List.mem_cons]
      exact Or.inr (ih h)

theorem lookupParam_setSelected (ps : Params) (name v : String) :
    lookupParam (setSelected ps name v) name =
      (lookupParam ps name).map fun p => { p with selected := v } := by
  induction ps with
  | nil => rfl
  | cons kp rest ih =>
    obtain ⟨k, p⟩ := kp
    by_cases hk : k = name
    · simp [setSelected, lookupParam, hk]
    · simp [setSelected, lookupParam, hk, ih]

theorem setSelected_cancel (ps : Params) (name v : String)
    (p : PortParameterDescriptor) (hnd : (ps.map Prod.fst).Nodup)
    (hlk : lookupParam ps name = some p) :
    setSelected (setSelected ps name v) name p.selected = ps := by
  induction ps with
  | nil => simp [lookupParam] at hlk
  | cons kp rest ih =>
    obtain ⟨k, q⟩ := kp
    simp only [List.map_cons, List.nodup_cons] at hnd
    by_cases hk : k = name
    · simp only [lookupParam, if_pos hk] at hlk
      have hq : q = p := Option.some.inj hlk
      subst hq
      have hrest : name ∉ rest.map Prod.fst := hk ▸ hnd.1
      simp only [setSelected, if_pos hk]
      rw [setSelected_not_mem rest name v hrest,
          setSelected_not_mem rest name q.selected hrest]
    · simp only [lookupParam, if_neg hk] at hlk
      simp only [setSelected, if_neg hk]
      rw [ih hnd.2 hlk]

theorem skeletonOf_setSelected (ps : Params) (name v : String) :
    skeletonOf (setSelected ps name v) = skeletonOf ps := by
  induction ps with
  | nil => rfl
  | cons kp rest ih =>
    obtain ⟨k, p⟩ := kp
    simp only [skeletonOf] at ih
    by_cases hk : k = name
    · simp only [setSelected, if_pos hk, skeletonOf, List.map_cons]
      rw [ih]
    · simp only [setSelected, if_neg hk, skeletonOf, List.map_cons]
      rw [ih]

theorem selectionsOk_setSelected (ps : Params) (name v : String)
    (p : PortParameterDescriptor) (hnd : (ps.map Prod.fst).Nodup)
    (hlk : lookupParam ps name = some p) (hv : v ∈ p.values) (hne : v ≠ "")
    (hok : selectionsOk ps = true) : selectionsOk (setSelected ps name v) = true := by
  induction ps with
  | nil => rfl
  | cons kp rest ih =>
    obtain ⟨k, q⟩ := kp
    simp only [List.map_cons, List.nodup_cons] at hnd
    simp only [selectionsOk, List.all_cons, Bool.and_eq_true] at hok
    by_cases hk : k = name
    · simp only [lookupParam, if_pos hk] at hlk
      have hq : q = p := Option.some.inj hlk
      subst hq
      have hrest : name ∉ rest.map Prod.fst := hk ▸ hnd.1
      simp only [setSelected, if_pos hk, selectionsOk, List.all_cons, Bool.and_eq_true]
      refine ⟨?_, ?_⟩
      · simp [hv, hne]
      · rw [setSelected_not_mem rest name v hrest]
        exact hok.2
    · simp only [lookupParam, if_neg hk] at hlk
      simp only [setSelected, if_neg hk, selectionsOk, List.all_cons, Bool.and_eq_true]
      exact ⟨hok.1, ih hnd.2 hlk hok.2⟩

theorem keys_eq_skeleton_keys (ps : Params) :
    ps.map Prod.fst = (skeletonOf ps).map fun x => x.1 := by
  induction ps with
  | nil => rfl
  | cons kp rest ih => simp [skeletonOf, ih]

/-! ### Reduction lemmas for part_001's Configure -/

namespace Part001

theorem configure_lookup_none (env : PortEnv) (d : SerialMonitor) (n v : String)
    (h : lookupParam d.serialSettings n = none) :
    Configure env d n v = .err d ("could not find parameter named " ++ n) := by
  simp only [Configure, h]

theorem configure_invalid_value (env : PortEnv) (d : SerialMonitor) (n v : String)
    (p : PortParameterDescriptor) (h : lookupParam d.serialSettings n = some p)
    (hv : v ∉ p.values) :
    Configure env d n v = .err d ("invalid value for parameter " ++ n ++ ": " ++ v) := by
  simp only [Configure, h, hv, if_false, ite_false, if_neg]

theorem configure_closed_ok (env : PortEnv) (d : SerialMonitor) (n v : String)
    (p : PortParameterDescriptor) (h : lookupParam d.serialSettings n = some p)
    (hv : v ∈ p.values) (hop : d.openedPort = false) :
    Configure env d n v = .ok (setParam d n v) := by
  simp only [Configure, h, hv, if_true, ite_true, hop, Bool.false_eq_true, if_false, ite_false]

theorem configure_open_reduce (env : PortEnv) (d : SerialMonitor) (n v : String)
    (p : PortParameterDescriptor) (h : lookupParam d.serialSettings n = some p)
    (hv : v ∈ p.values) (hop : d.openedPort = true) :
    Configure env d n v =
      (match applyParameter env (setParam d n v) n with
       | none => .panicked ("Invalid parameter: " ++ n)
       | some none => .ok (setParam d n v)
       | some (some e) => .err (setParam (setParam d n v) n p.selected) e) := by
  simp only [Configure, h, hv, if_true, ite_true, hop]

theorem std_keys_nodup (ps : Params) (hsk : skeletonOf ps = stdSkeleton) :
    (ps.map Prod.fst).Nodup := by
  rw [keys_eq_skeleton_keys, hsk]
  decide

theorem std_values_no_empty (ps : Params) (name : String)
    (p : PortParameterDescriptor) (hsk : skeletonOf ps = stdSkeleton)
    (hlk : lookupParam ps name = some p) : "" ∉ p.values := by
  have hmem := lookupParam_mem_skeleton ps name p hlk
  rw [hsk] at hmem
  have hall : ∀ x ∈ stdSkeleton, "" ∉ x.2.2.2 := by decide
  exact hall _ hmem

theorem open_settings (env : PortEnv) (d : SerialMonitor) (bp : String) :
    ((Open env d bp).1).serialSettings = d.serialSettings := by
  unfold Open
  split
  · rfl
  · split <;> rfl

theorem close_settings (env : PortEnv) (d : SerialMonitor) :
    ((Close env d).1).serialSettings = d.serialSettings := by
  unfold Close
  split <;> rfl

theorem inv_step (d : SerialMonitor) (op : Op) (h : Inv d = true) :
    Inv (step d op) = true := by
  have hparts : (decide (skeletonOf d.serialSettings = stdSkeleton)
      && selectionsOk d.serialSettings) = true := h
  rw [Bool.and_eq_true] at hparts
  have hsk : skeletonOf d.serialSettings = stdSkeleton := of_decide_eq_true hparts.1
  have hsel : selectionsOk d.serialSettings = true := hparts.2
  cases op with
  | doOpen env bp =>
    show InvSettings ((Open env d bp).1).serialSettings = true
    rw [open_settings]
    exact h
  | doClose env =>
    show InvSettings ((Close env d).1).serialSettings = true
    rw [close_settings]
    exact h
  | doConfigure env n v =>
    have hnd := std_keys_nodup _ hsk
    cases hlk : lookupParam d.serialSettings n with
    | none =>
      simp only [step, configure_lookup_none env d n v hlk]
      exact h
    | some p =>
      by_cases hv : v ∈ p.values
      · have hvne : v ≠ "" := fun he => std_values_no_empty _ _ _ hsk hlk (he ▸ hv)
        have hsel2 := selectionsOk_setSelected d.serialSettings n v p hnd hlk hv hvne hsel
        have hsk2 : skeletonOf (setSelected d.serialSettings n v) = stdSkeleton := by
          rw [skeletonOf_setSelected]; exact hsk
        have hok : Inv (setParam d n v) = true := by
          show (decide (skeletonOf (setSelected d.serialSettings n v) = stdSkeleton)
            && selectionsOk (setSelected d.serialSettings n v)) = true
          rw [Bool.and_eq_true]
          exact ⟨decide_eq_true hsk2, hsel2⟩
        cases hop : d.openedPort with
        | false =>
          simp only [step, configure_closed_ok env d n v p hlk hv hop]
          exact hok
        | true =>
          simp only [step, configure_open_reduce env d n v p hlk hv hop]
          cases happ : applyParameter env (setParam d n v) n with
          | none => exact h
          | some r =>
            cases r with
            | none => exact hok
            | some e =>
              show InvSettings (setParam (setParam d n v) n p.selected).serialSettings = true
              show InvSettings (setSelected (setSelected d.serialSettings n v) n p.selected) = true
              rw [setSelected_cancel d.serialSettings n v p hnd hlk]
              exact h
      · simp only [step, configure_invalid_value env d n v p hlk hv]
        exact h

theorem run_inv (ops : List Op) (d : SerialMonitor) (h : Inv d = true) :
    Inv (run d ops) = true := by
  induction ops generalizing d with
  | nil => exact h
  | cons op rest ih => exact ih _ (inv_step d op h)

theorem applyParameter_okEnv (d1 : SerialMonitor) (n : String) :
    applyParameter okEnv d1 n = some none ∨ applyParameter okEnv d1 n = none := by
  unfold applyParameter
  split_ifs <;> simp [okEnv]

end Part001

/-! ### Reduction lemmas for main.go's Configure -/

namespace MainGo

theorem maingo_configure_lookup_none (env : PortEnv) (d : SerialMonitor) (n v : String)
    (h : lookupParam d.serialSettings n = none) :
    Configure env d n v = (d, some ("could not find parameter named " ++ n)) := by
  simp only [Configure, h]

theorem maingo_configure_invalid_value (env : PortEnv) (d : SerialMonitor) (n v : String)
    (p : PortParameterDescriptor) (h : lookupParam d.serialSettings n = some p)
    (hv : v ∉ p.values) :
    Configure env d n v = (d, some ("invalid value for parameter " ++ n ++ ": " ++ v)) := by
  simp only [Configure, h, hv, if_false, ite_false, if_neg]

theorem maingo_configure_closed_ok (env : PortEnv) (d : SerialMonitor) (n v : String)
    (p : PortParameterDescriptor) (h : lookupParam d.serialSettings n = some p)
    (hv : v ∈ p.values) (hop : d.openedPort = false) :
    Configure env d n v = (setParam d n v, none) := by
  simp only [Configure, h, hv, if_true, ite_true, hop, Bool.false_eq_true, if_false, ite_false]

theorem maingo_configure_open_reduce (env : PortEnv) (d : SerialMonitor) (n v : String)
    (p : PortParameterDescriptor) (h : lookupParam d.serialSettings n = some p)
    (hv : v ∈ p.values) (hop : d.openedPort = true) :
    Configure env d n v =
      (match env.setMode (getMode (setParam d n v)) with
       | some e => (setParam (setParam d n v) n p.selected, some e)
       | none => (setParam d n v, none)) := by
  simp only [Configure, h, hv, if_true, ite_true, hop]

end MainGo

/-! ### Claim theorems -/

/-- Claim C2: for every configuration parameter of the part_001 session, the
selected value is a non-empty member of that parameter's allowed values — in
the initial state built by NewSerialMonitor and after every sequence of
Configure, Open and Close operations under arbitrary driver environments
(which includes Configure calls whose live apply fails and is rolled back). -/
theorem part001_selected_invariant (ops : List Part001.Op) :
    ∀ kp ∈ (Part001.run Part001.NewSerialMonitor ops).serialSettings,
      kp.2.selected ∈ kp.2.values ∧ kp.2.selected ≠ "" := by
  have h := Part001.run_inv ops Part001.NewSerialMonitor (by decide)
  have hparts : (decide (skeletonOf (Part001.run Part001.NewSerialMonitor ops).serialSettings
      = Part001.stdSkeleton)
      && selectionsOk (Part001.run Part001.NewSerialMonitor ops).serialSettings) = true := h
  rw [Bool.and_eq_true] at hparts
  have hsel := hparts.2
  intro kp hkp
  have h2 := List.all_eq_true.mp hsel kp hkp
  rw [Bool.and_eq_true] at h2
  refine ⟨of_decide_eq_true h2.1, fun he => ?_⟩
  rw [he] at h2
  simp at h2

/-- Witness for C2: after configuring baudrate to 115200, the baudrate
parameter still selects a non-empty allowed value. -/
theorem part001_selected_invariant_witness :
    ("115200" : String) ∈ (["300", "600", "750",
        "1200", "2400", "4800", "9600",
        "19200", "31250", "38400", "57600", "74880",
        "115200", "230400", "250000", "460800", "500000", "921600",
        "1000000", "2000000"] : List String) ∧ ("115200" : String) ≠ "" :=
  part001_selected_invariant [Part001.Op.doConfigure okEnv "baudrate" "115200"]
    ("baudrate",
      { label := "Baudrate", type := "enum"
        values := ["300", "600", "750",
                   "1200", "2400", "4800", "9600",
                   "19200", "31250", "38400", "57600", "74880",
                   "115200", "230400", "250000", "460800", "500000", "921600",
                   "1000000", "2000000"]
        selected := "115200" })
    (by decide)

/-- Claim C3: part_001's Open issued while the session is already Open fails
with the AlreadyOpen message and returns the monitor state byte-for-byte
unchanged (handle, flag and parameters included); Close issued while Closed
fails with the AlreadyClosed message and leaves the state unchanged. -/
theorem part001_lifecycle_guards (env : PortEnv) (d : Part001.SerialMonitor)
    (boardPort : String) :
    (d.openedPort = true →
       Part001.Open env d boardPort = (d, .error ("port already opened: " ++ boardPort)))
  ∧ (d.openedPort = false →
       Part001.Close env d = (d, some "port already closed")) := by
  constructor
  · intro h
    simp [Part001.Open, h]
  · intro h
    simp [Part001.Close, h]

/-- Witness for C3 at concrete states. -/
theorem part001_lifecycle_guards_witness :
    Part001.Open okEnv Part001.openedMonitor "/dev/ttyACM0" =
      (Part001.openedMonitor, .error ("port already opened: " ++ "/dev/ttyACM0"))
  ∧ Part001.Close okEnv Part001.NewSerialMonitor =
      (Part001.NewSerialMonitor, some "port already closed") :=
  ⟨(part001_lifecycle_guards okEnv Part001.openedMonitor "/dev/ttyACM0").1 rfl,
   (part001_lifecycle_guards okEnv Part001.NewSerialMonitor "/dev/ttyACM0").2 rfl⟩

/-- Claim C4: when Open runs from the Closed state and the driver open fails,
Open returns the underlying error, stores no handle, and the session stays
Closed — a subsequent Close still fails AlreadyClosed.  Holds for part_001 and
for main.go. -/
theorem open_failure_leaves_closed (env : PortEnv) (d : Part001.SerialMonitor)
    (dm : MainGo.SerialMonitor) (boardPort msg msgm : String)
    (h1 : d.openedPort = false)
    (h2 : env.openPort boardPort (Part001.getMode d) = .error msg)
    (h3 : dm.openedPort = false)
    (h4 : env.openPort boardPort (MainGo.getMode dm) = .error msgm) :
    Part001.Open env d boardPort = (d, .error msg)
  ∧ (Part001.Close env d).2 = some "port already closed"
  ∧ MainGo.Open env dm boardPort = (dm, .error msgm)
  ∧ (MainGo.Close env dm).2 = some "port already closed" := by
  refine ⟨?_, ?_, ?_, ?_⟩
  · simp [Part001.Open, h1, h2]
  · simp [Part001.Close, h1]
  · simp [MainGo.Open, h3, h4]
  · simp [MainGo.Close, h3]

/-- Witness for C4 with a concrete failing driver. -/
theorem open_failure_leaves_closed_witness :
    Part001.Open failOpenEnv Part001.NewSerialMonitor "/dev/ttyACM0" =
      (Part001.NewSerialMonitor, .error "no such file or directory")
  ∧ (Part001.Close failOpenEnv Part001.NewSerialMonitor).2 = some "port already closed"
  ∧ MainGo.Open failOpenEnv MainGo.NewSerialMonitor "/dev/ttyACM0" =
      (MainGo.NewSerialMonitor, .error "no such file or directory")
  ∧ (MainGo.Close failOpenEnv MainGo.NewSerialMonitor).2 = some "port already closed" :=
  open_failure_leaves_closed failOpenEnv Part001.NewSerialMonitor MainGo.NewSerialMonitor
    "/dev/ttyACM0" "no such file or directory" "no such file or directory"
    rfl rfl rfl rfl

/-- Claim C5: Close issued while the session is Open always succeeds — it
clears the open flag and returns no error for every driver environment, in
particular when the driver Close call itself errors (the error is discarded).
Holds for part_001 and for main.go. -/
theorem close_from_open_always_succeeds (env : PortEnv) (d : Part001.SerialMonitor)
    (dm : MainGo.SerialMonitor) (h1 : d.openedPort = true) (h2 : dm.openedPort = true) :
    Part001.Close env d = ({ d with openedPort := false }, none)
  ∧ MainGo.Close env dm = ({ dm with openedPort := false }, none) := by
  constructor
  · simp [Part001.Close, h1]
  · simp [MainGo.Close, h2]

/-- Witness for C5 with a driver whose Close call errors. -/
theorem close_from_open_always_succeeds_witness :
    Part001.Close { okEnv with closeErr := some "device disconnected" }
        Part001.openedMonitor =
      ({ Part001.openedMonitor with openedPort := false }, none)
  ∧ MainGo.Close { okEnv with closeErr := some "device disconnected" }
        MainGo.openedMonitor =
      ({ MainGo.openedMonitor with openedPort := false }, none) :=
  close_from_open_always_succeeds { okEnv with closeErr := some "device disconnected" }
    Part001.openedMonitor MainGo.openedMonitor rfl rfl

/-- Claim C6: part_001's parity switch in getMode matches only the capitalized
labels None/Even/Odd/Mark/Space; any other selected string silently leaves the
Parity wire field at the zero value NoParity, with no error — in particular
every allowed parity value of part_001's descriptor (all lowercase) does. -/
theorem parity_silently_defaults :
    (∀ s : String, s ∉ (["None", "Even", "Odd", "Mark", "Space"] : List String) →
       Part001.parityOfSelected s = Parity.noParity)
  ∧ (∀ p, lookupParam Part001.NewSerialMonitor.serialSettings "parity" = some p →
       p.values = ["none", "even", "odd", "mark", "space"] ∧
       ∀ v ∈ p.values,
         (Part001.getMode (Part001.setParam Part001.NewSerialMonitor "parity" v)).parity =
           Parity.noParity) := by
  constructor
  · intro s hs
    unfold Part001.parityOfSelected
    split_ifs with h1 h2 h3 h4 h5
    · rfl
    · subst h2; simp at hs
    · subst h3; simp at hs
    · subst h4; simp at hs
    · subst h5; simp at hs
    · rfl
  · intro p hp
    have hconc : lookupParam Part001.NewSerialMonitor.serialSettings "parity" =
        some { label := "Parity", type := "enum"
               values := ["none", "even", "odd", "mark", "space"]
               selected := "none" } := by decide
    have hpe := Option.some.inj (hp.symm.trans hconc)
    subst hpe
    exact ⟨rfl, by decide⟩

/-- Witness for C6: the allowed value "even" yields NoParity on the wire. -/
theorem parity_silently_defaults_witness :
    Part001.parityOfSelected "even" = Parity.noParity
  ∧ (Part001.getMode (Part001.setParam Part001.NewSerialMonitor "parity" "even")).parity =
      Parity.noParity :=
  ⟨parity_silently_defaults.1 "even" (by decide),
   (parity_silently_defaults.2
      { label := "Parity", type := "enum"
        values := ["none", "even", "odd", "mark", "space"]
        selected := "none" } (by decide)).2 "even" (by decide)⟩

/-- Claim C8 counterexample: with the session Open, part_001's Quit leaves the
monitor byte-for-byte unchanged — the open flag stays true and the port handle
stays stored, so no teardown to Closed is performed. -/
theorem part001_quit_no_teardown :
    Part001.Quit Part001.openedMonitor = Part001.openedMonitor
  ∧ (Part001.Quit Part001.openedMonitor).openedPort = true
  ∧ (Part001.Quit Part001.openedMonitor).serialPort = some 7 :=
  ⟨rfl, rfl, rfl⟩

/-- Claim C8 amended: the monitor's Quit handler never fails (it has no error
result) but performs no teardown whatsoever: in part_001 and in main.go the
handler body is empty, leaving the session state — open flag, handle and
configuration — exactly as it was. -/
theorem quit_is_noop :
    (∀ d : Part001.SerialMonitor, Part001.Quit d = d)
  ∧ (∀ dm : MainGo.SerialMonitor, MainGo.Quit dm = dm) :=
  ⟨fun _ => rfl, fun _ => rfl⟩

/-- Claim C10: in part_000, the short variable declaration inside Open shadows
the package-level openedPort variable, so a successful Open leaves the global
state unchanged (openedPort still nil): the handle is returned but never
stored, an immediately following Close fails with the AlreadyClosed error, and
a repeated Open is not rejected with AlreadyOpen. -/
theorem part000_open_shadowing (env : Part000.PortEnv) (st : Part000.State)
    (boardPort : String) (h : Nat)
    (hclosed : st.openedPort = none)
    (hok : env.openPort boardPort (Part000.getMode st) = .ok h) :
    Part000.Open env st boardPort = (st, .ok h)
  ∧ (Part000.Close env st).2 = some "port already closed"
  ∧ Part000.Open env st boardPort ≠ (st, .error ("port already opened: " ++ boardPort)) := by
  have hopen : Part000.Open env st boardPort = (st, .ok h) := by
    simp [Part000.Open, hclosed, hok]
  refine ⟨hopen, ?_, ?_⟩
  · simp [Part000.Close, hclosed]
  · rw [hopen]
    intro hc
    have := congrArg Prod.snd hc
    simp at this

/-- Witness for C10 at the initial part_000 state. -/
theorem part000_open_shadowing_witness :
    Part000.Open Part000.okEnv Part000.initialState "/dev/ttyACM0" =
      (Part000.initialState, .ok 0)
  ∧ (Part000.Close Part000.okEnv Part000.initialState).2 = some "port already closed"
  ∧ Part000.Open Part000.okEnv Part000.initialState "/dev/ttyACM0" ≠
      (Part000.initialState, .error ("port already opened: " ++ "/dev/ttyACM0")) :=
  part000_open_shadowing Part000.okEnv Part000.initialState "/dev/ttyACM0" 0 rfl rfl

/-- Claim C1 counterexample: part_000's Configure has no rollback: with the
global port open and a driver whose SetMode fails, configuring baudrate to
"300" returns an error yet leaves the store mutated (selected = "300"), so on
that failure path the configuration store is not byte-for-byte unchanged. -/
theorem part000_apply_failure_mutates_store :
    (Part000.Configure Part000.failApplyEnv Part000.openedState "baudrate" "300").2 =
      some "input/output error"
  ∧ (Part000.Configure Part000.failApplyEnv Part000.openedState "baudrate" "300").1 ≠
      Part000.openedState := by
  refine ⟨rfl, ?_⟩
  decide

/-- Claim C1 amended: for part_001's Configure (the variant with rollback) the
property holds as the claim states it: assuming the Go-map key uniqueness of
the descriptor, every error path — unknown name, disallowed value, or failed
live apply (rolled back) — returns the store byte-for-byte unchanged; success
happens exactly when the name is a key, the value is allowed, and the session
is Closed or the live apply succeeds; and on success the staged value is
selected.  part_000's Configure, which the claim also cites, lacks the
rollback — see the counterexample. -/
theorem part001_configure_atomic (env : PortEnv) (d : Part001.SerialMonitor)
    (name value : String) (hnd : (d.serialSettings.map Prod.fst).Nodup) :
    (∀ d1 msg, Part001.Configure env d name value = .err d1 msg → d1 = d)
  ∧ (∀ d1, Part001.Configure env d name value = .ok d1 →
       d1 = Part001.setParam d name value ∧
       lookupParam d1.serialSettings name =
         (lookupParam d.serialSettings name).map fun p => { p with selected := value })
  ∧ ((∃ d1, Part001.Configure env d name value = .ok d1) ↔
       ((∃ p, lookupParam d.serialSettings name = some p ∧ value ∈ p.values)
        ∧ (d.openedPort = false
           ∨ Part001.applyParameter env (Part001.setParam d name value) name = some none))) := by
  cases hlk : lookupParam d.serialSettings name with
  | none =>
    have hC := Part001.configure_lookup_none env d name value hlk
    refine ⟨?_, ?_, ?_⟩
    · intro d1 msg heq
      rw [hC] at heq
      injection heq with e1 e2
      exact e1.symm
    · intro d1 heq
      rw [hC] at heq
      exact absurd heq (by simp)
    · apply iff_of_false
      · rintro ⟨d1, heq⟩
        rw [hC] at heq
        exact absurd heq (by simp)
      · rintro ⟨⟨p, hp, -⟩, -⟩
        exact absurd hp (by simp)
  | some p =>
    by_cases hv : value ∈ p.values
    · cases hop : d.openedPort with
      | false =>
        have hC := Part001.configure_closed_ok env d name value p hlk hv hop
        refine ⟨?_, ?_, ?_⟩
        · intro d1 msg heq
          rw [hC] at heq
          exact absurd heq (by simp)
        · intro d1 heq
          rw [hC] at heq
          injection heq with e1
          refine ⟨e1.symm, ?_⟩
          rw [← e1]
          have hl2 := lookupParam_setSelected d.serialSettings name value
          rw [hlk] at hl2
          exact hl2
        · exact iff_of_true ⟨_, hC⟩ ⟨⟨p, rfl, hv⟩, Or.inl rfl⟩
      | true =>
        cases happ : Part001.applyParameter env (Part001.setParam d name value) name with
        | none =>
          have hC : Part001.Configure env d name value =
              .panicked ("Invalid parameter: " ++ name) := by
            rw [Part001.configure_open_reduce env d name value p hlk hv hop, happ]
          refine ⟨?_, ?_, ?_⟩
          · intro d1 msg heq
            rw [hC] at heq
            exact absurd heq (by simp)
          · intro d1 heq
            rw [hC] at heq
            exact absurd heq (by simp)
          · apply iff_of_false
            · rintro ⟨d1, heq⟩
              rw [hC] at heq
              exact absurd heq (by simp)
            · rintro ⟨-, hor⟩
              rcases hor with hcl | hap
              · exact absurd hcl (by simp)
              · exact absurd hap (by simp)
        | some r =>
          cases r with
          | none =>
            have hC : Part001.Configure env d name value =
                .ok (Part001.setParam d name value) := by
              rw [Part001.configure_open_reduce env d name value p hlk hv hop, happ]
            refine ⟨?_, ?_, ?_⟩
            · intro d1 msg heq
              rw [hC] at heq
              exact absurd heq (by simp)
            · intro d1 heq
              rw [hC] at heq
              injection heq with e1
              refine ⟨e1.symm, ?_⟩
              rw [← e1]
              have hl2 := lookupParam_setSelected d.serialSettings name value
              rw [hlk] at hl2
              exact hl2
            · exact iff_of_true ⟨_, hC⟩ ⟨⟨p, rfl, hv⟩, Or.inr rfl⟩
          | some e =>
            have hC : Part001.Configure env d name value =
                .err (Part001.setParam (Part001.setParam d name value) name p.selected) e := by
              rw [Part001.configure_open_reduce env d name value p hlk hv hop, happ]
            have hroll : Part001.setParam (Part001.setParam d name value) name p.selected = d := by
              have hcan := setSelected_cancel d.serialSettings name value p hnd hlk
              show ({ d with serialSettings := setSelected (setSelected d.serialSettings name value) name p.selected } : Part001.SerialMonitor) = d
              rw [hcan]
            refine ⟨?_, ?_, ?_⟩
            · intro d1 msg heq
              rw [hC] at heq
              injection heq with e1 e2
              rw [← e1]
              exact hroll
            · intro d1 heq
              rw [hC] at heq
              exact absurd heq (by simp)
            · apply iff_of_false
              · rintro ⟨d1, heq⟩
                rw [hC] at heq
                exact absurd heq (by simp)
              · rintro ⟨-, hor⟩
                rcases hor with hcl | hap
                · exact absurd hcl (by simp)
                · exact absurd hap (by simp)
    · have hC := Part001.configure_invalid_value env d name value p hlk hv
      refine ⟨?_, ?_, ?_⟩
      · intro d1 msg heq
        rw [hC] at heq
        injection heq with e1 e2
        exact e1.symm
      · intro d1 heq
        rw [hC] at heq
        exact absurd heq (by simp)
      · apply iff_of_false
        · rintro ⟨d1, heq⟩
          rw [hC] at heq
          exact absurd heq (by simp)
        · rintro ⟨⟨p2, hp2, hv2⟩, -⟩
          cases Option.some.inj hp2
          exact hv hv2

/-- Witness for C1: a Configure of baudrate to "300" on the closed initial
part_001 monitor commits the staged value. -/
theorem part001_configure_atomic_witness :
    Part001.Configure okEnv Part001.NewSerialMonitor "baudrate" "300" =
      .ok (Part001.setParam Part001.NewSerialMonitor "baudrate" "300") := by
  obtain ⟨h1, h2, h3⟩ :=
    part001_configure_atomic okEnv Part001.NewSerialMonitor "baudrate" "300" (by decide)
  obtain ⟨d1, hd1⟩ := h3.mpr ⟨⟨_, rfl, by decide⟩, Or.inl rfl⟩
  exact hd1.trans (congrArg Part001.ConfigureResult.ok (h2 d1 hd1).1)

/-- Claim C7: Configure fails with the ParameterNotFound message — for every
driver environment — exactly when the name is not a key of the descriptor, and
with the InvalidValue message — for every environment — exactly when the name
is a key but the value is not among that parameter's allowed values; the
unknown-name check takes precedence.  Holds for part_001 and for main.go. -/
theorem configure_error_classification (d : Part001.SerialMonitor)
    (dm : MainGo.SerialMonitor) (name value : String) :
    ((∀ env, Part001.Configure env d name value =
        .err d ("could not find parameter named " ++ name)) ↔
      lookupParam d.serialSettings name = none)
  ∧ ((∀ env, Part001.Configure env d name value =
        .err d ("invalid value for parameter " ++ name ++ ": " ++ value)) ↔
      ∃ p, lookupParam d.serialSettings name = some p ∧ value ∉ p.values)
  ∧ ((∀ env, MainGo.Configure env dm name value =
        (dm, some ("could not find parameter named " ++ name))) ↔
      lookupParam dm.serialSettings name = none)
  ∧ ((∀ env, MainGo.Configure env dm name value =
        (dm, some ("invalid value for parameter " ++ name ++ ": " ++ value))) ↔
      ∃ p, lookupParam dm.serialSettings name = some p ∧ value ∉ p.values) := by
  refine ⟨⟨?_, ?_⟩, ⟨?_, ?_⟩, ⟨?_, ?_⟩, ⟨?_, ?_⟩⟩
  · intro hall
    cases hlk : lookupParam d.serialSettings name with
    | none => rfl
    | some p =>
      exfalso
      by_cases hv : value ∈ p.values
      · cases hop : d.openedPort with
        | false =>
          have h1 := Part001.configure_closed_ok okEnv d name value p hlk hv hop
          have h2 := hall okEnv
          rw [h1] at h2
          exact absurd h2 (by simp)
        | true =>
          have h2 := hall okEnv
          rcases Part001.applyParameter_okEnv (Part001.setParam d name value) name with ha | ha
          · have h1 : Part001.Configure okEnv d name value =
                .ok (Part001.setParam d name value) := by
              rw [Part001.configure_open_reduce okEnv d name value p hlk hv hop, ha]
            rw [h1] at h2
            exact absurd h2 (by simp)
          · have h1 : Part001.Configure okEnv d name value =
                .panicked ("Invalid parameter: " ++ name) := by
              rw [Part001.configure_open_reduce okEnv d name value p hlk hv hop, ha]
            rw [h1] at h2
            exact absurd h2 (by simp)
      · have h1 := Part001.configure_invalid_value okEnv d name value p hlk hv
        have h2 := hall okEnv
        rw [h1] at h2
        injection h2 with e1 e2
        exact notFound_ne_invalid name value e2.symm
  · intro hlk env
    exact Part001.configure_lookup_none env d name value hlk
  · intro hall
    cases hlk : lookupParam d.serialSettings name with
    | none =>
      exfalso
      have h1 := Part001.configure_lookup_none okEnv d name value hlk
      have h2 := hall okEnv
      rw [h1] at h2
      injection h2 with e1 e2
      exact notFound_ne_invalid name value e2
    | some p =>
      refine ⟨p, rfl, fun hv => ?_⟩
      cases hop : d.openedPort with
      | false =>
        have h1 := Part001.configure_closed_ok okEnv d name value p hlk hv hop
        have h2 := hall okEnv
        rw [h1] at h2
        exact absurd h2 (by simp)
      | true =>
        have h2 := hall okEnv
        rcases Part001.applyParameter_okEnv (Part001.setParam d name value) name with ha | ha
        · have h1 : Part001.Configure okEnv d name value =
              .ok (Part001.setParam d name value) := by
            rw [Part001.configure_open_reduce okEnv d name value p hlk hv hop, ha]
          rw [h1] at h2
          exact absurd h2 (by simp)
        · have h1 : Part001.Configure okEnv d name value =
              .panicked ("Invalid parameter: " ++ name) := by
            rw [Part001.configure_open_reduce okEnv d name value p hlk hv hop, ha]
          rw [h1] at h2
          exact absurd h2 (by simp)
  · rintro ⟨p, hp, hv⟩ env
    exact Part001.configure_invalid_value env d name value p hp hv
  · intro hall
    cases hlk : lookupParam dm.serialSettings name with
    | none => rfl
    | some p =>
      exfalso
      by_cases hv : value ∈ p.values
      · cases hop : dm.openedPort with
        | false =>
          have h1 := MainGo.maingo_configure_closed_ok okEnv dm name value p hlk hv hop
          have h2 := hall okEnv
          rw [h1] at h2
          have h3 := congrArg Prod.snd h2
          exact absurd h3 (by simp)
        | true =>
          have h1 : MainGo.Configure okEnv dm name value =
              (MainGo.setParam dm name value, none) := by
            rw [MainGo.maingo_configure_open_reduce okEnv dm name value p hlk hv hop]
            rfl
          have h2 := hall okEnv
          rw [h1] at h2
          have h3 := congrArg Prod.snd h2
          exact absurd h3 (by simp)
      · have h1 := MainGo.maingo_configure_invalid_value okEnv dm name value p hlk hv
        have h2 := hall okEnv
        rw [h1] at h2
        have h3 := Option.some.inj (congrArg Prod.snd h2)
        exact notFound_ne_invalid name value h3.symm
  · intro hlk env
    exact MainGo.maingo_configure_lookup_none env dm name value hlk
  · intro hall
    cases hlk : lookupParam dm.serialSettings name with
    | none =>
      exfalso
      have h1 := MainGo.maingo_configure_lookup_none okEnv dm name value hlk
      have h2 := hall okEnv
      rw [h1] at h2
      have h3 := Option.some.inj (congrArg Prod.snd h2)
      exact notFound_ne_invalid name value h3
    | some p =>
      refine ⟨p, rfl, fun hv => ?_⟩
      cases hop : dm.openedPort with
      | false =>
        have h1 := MainGo.maingo_configure_closed_ok okEnv dm name value p hlk hv hop
        have h2 := hall okEnv
        rw [h1] at h2
        have h3 := congrArg Prod.snd h2
        exact absurd h3 (by simp)
      | true =>
        have h1 : MainGo.Configure okEnv dm name value =
            (MainGo.setParam dm name value, none) := by
          rw [MainGo.maingo_configure_open_reduce okEnv dm name value p hlk hv hop]
          rfl
        have h2 := hall okEnv
        rw [h1] at h2
        have h3 := congrArg Prod.snd h2
        exact absurd h3 (by simp)
  · rintro ⟨p, hp, hv⟩ env
    exact MainGo.maingo_configure_invalid_value env dm name value p hp hv

/-- Witness for C7: an unknown name fails with the not-found message in
part_001, and a disallowed baudrate fails with the invalid-value message in
main.go. -/
theorem configure_error_classification_witness :
    Part001.Configure okEnv Part001.NewSerialMonitor "flow_control" "on" =
      .err Part001.NewSerialMonitor ("could not find parameter named " ++ "flow_control")
  ∧ MainGo.Configure okEnv MainGo.NewSerialMonitor "baudrate" "123456" =
      (MainGo.NewSerialMonitor,
        some ("invalid value for parameter " ++ "baudrate" ++ ": " ++ "123456")) :=
  ⟨(configure_error_classification Part001.NewSerialMonitor MainGo.NewSerialMonitor
      "flow_control" "on").1.mpr rfl okEnv,
   (configure_error_classification Part001.NewSerialMonitor MainGo.NewSerialMonitor
      "baudrate" "123456").2.2.2.mpr ⟨_, rfl, by decide⟩ okEnv⟩

end SerialMonitorProof
